import Mathlib

/-!
Formal model of the Travel Companion frontend controller
(`src/google_gemini/ai-powered-travel-agent/gui/app.js`).

The controller is event-driven DOM glue: a preference-checkbox limiter,
two form submit handlers (location and image) that validate input, issue
a single fetch and render destination cards, and a weather modal.  Each
handler is embedded as a pure function from its inputs (raw form input,
checkbox states, the outcome of the single fetch, the prior UI state) to
a trace recording the request issued, the toasts shown, the loading
transitions and the final UI state.
-/

/-- State of one DOM checkbox: its `checked` flag and its `value` attribute. -/
structure Checkbox where
  checked : Bool
  value : String
deriving DecidableEq

/-- Number of checked boxes in a group
(`Array.from(checkboxes).filter(cb => cb.checked).length`). -/
def checkedCount (cbs : List Checkbox) : Nat :=
  (cbs.filter (fun cb => cb.checked)).length

/-- Assign the `checked` property of the checkbox at index `i`
(out-of-range assignment is a no-op, matching an absent DOM node). -/
def setChecked : List Checkbox → Nat → Bool → List Checkbox
  | [], _, _ => []
  | cb :: rest, 0, v => { cb with checked := v } :: rest
  | cb :: rest, i + 1, v => cb :: setChecked rest i v

/-- The `change` listener installed by `limitPreferences`: after a toggle,
if more than 3 boxes in the group are checked, the toggled box is
unchecked again and a warning toast is requested (the returned `Bool`). -/
def limitPreferencesHandler (group : List Checkbox) (i : Nat) :
    List Checkbox × Bool :=
  if 3 < checkedCount group then (setChecked group i false, true)
  else (group, false)

/-- A user toggle of checkbox `i`: the browser flips `checked`, then the
`change` listener from `limitPreferences` runs on the new group state. -/
def click (cbs : List Checkbox) (i : Nat) : List Checkbox × Bool :=
  let flipped := setChecked cbs i (!(cbs.getD i ⟨false, ""⟩).checked)
  limitPreferencesHandler flipped i

/-- A sequence of user toggles, applied left to right. -/
def clicks (cbs : List Checkbox) (evs : List Nat) : List Checkbox :=
  evs.foldl (fun s i => (click s i).1) cbs

theorem setChecked_length (cbs : List Checkbox) (i : Nat) (v : Bool) :
    (setChecked cbs i v).length = cbs.length := by
  induction cbs generalizing i with
  | nil => rfl
  | cons cb rest ih =>
    cases i with
    | zero => rfl
    | succ n => simp [setChecked, ih]

theorem setChecked_setChecked (cbs : List Checkbox) (i : Nat) (v w : Bool) :
    setChecked (setChecked cbs i v) i w = setChecked cbs i w := by
  induction cbs generalizing i with
  | nil => rfl
  | cons cb rest ih =>
    cases i with
    | zero => rfl
    | succ n => simp [setChecked, ih]

theorem checkedCount_cons (cb : Checkbox) (rest : List Checkbox) :
    checkedCount (cb :: rest) =
      (if cb.checked then 1 else 0) + checkedCount rest := by
  cases h : cb.checked <;> simp [checkedCount, List.filter_cons, h]
  omega

theorem checkedCount_setChecked_false (cbs : List Checkbox) (i : Nat) :
    checkedCount (setChecked cbs i false) ≤ checkedCount cbs := by
  induction cbs generalizing i with
  | nil => simp [setChecked]
  | cons cb rest ih =>
    cases i with
    | zero =>
      simp only [setChecked, checkedCount_cons]
      cases h : cb.checked <;> simp
    | succ n =>
      simp only [setChecked, checkedCount_cons]
      have := ih n
      omega

theorem setChecked_false_of_unchecked (cbs : List Checkbox) (i : Nat)
    (hi : i < cbs.length) (hc : (cbs.get ⟨i, hi⟩).checked = false) :
    setChecked cbs i false = cbs := by
  induction cbs generalizing i with
  | nil => rfl
  | cons cb rest ih =>
    cases i with
    | zero =>
      simp only [List.get] at hc
      simp only [setChecked]
      cases cb
      simp_all
    | succ n =>
      simp only [List.get] at hc
      simp only [setChecked]
      rw [ih n (Nat.lt_of_succ_lt_succ hi) hc]

theorem checkedCount_setChecked_true_of_unchecked (cbs : List Checkbox)
    (i : Nat) (hi : i < cbs.length) (hc : (cbs.get ⟨i, hi⟩).checked = false) :
    checkedCount (setChecked cbs i true) = checkedCount cbs + 1 := by
  induction cbs generalizing i with
  | nil => simp at hi
  | cons cb rest ih =>
    cases i with
    | zero =>
      simp only [List.get] at hc
      simp only [setChecked, checkedCount_cons, hc]
      simp
      omega
    | succ n =>
      simp only [List.get] at hc
      simp only [setChecked, checkedCount_cons]
      rw [ih n (Nat.lt_of_succ_lt_succ hi) hc]
      omega

theorem getD_eq_get (cbs : List Checkbox) (i : Nat) (d : Checkbox)
    (hi : i < cbs.length) : cbs.getD i d = cbs.get ⟨i, hi⟩ := by
  induction cbs generalizing i with
  | nil => simp at hi
  | cons cb rest ih =>
    cases i with
    | zero => rfl
    | succ n => exact ih n (Nat.lt_of_succ_lt_succ hi)

theorem click_checkedCount_le (cbs : List Checkbox) (i : Nat)
    (h : checkedCount cbs ≤ 3) : checkedCount (click cbs i).1 ≤ 3 := by
  unfold click limitPreferencesHandler
  by_cases hgt :
      3 < checkedCount (setChecked cbs i (!(cbs.getD i ⟨false, ""⟩).checked))
  · simp only [hgt, if_pos]
    rw [setChecked_setChecked]
    exact Nat.le_trans (checkedCount_setChecked_false cbs i) h
  · simp only [hgt, if_neg, not_false_iff]
    omega

theorem clicks_checkedCount_le (cbs : List Checkbox) (evs : List Nat)
    (h : checkedCount cbs ≤ 3) : checkedCount (clicks cbs evs) ≤ 3 := by
  induction evs generalizing cbs with
  | nil => exact h
  | cons e rest ih =>
    exact ih (click cbs e).1 (click_checkedCount_le cbs e h)

theorem click_fourth_reverted (cbs : List Checkbox) (i : Nat)
    (hi : i < cbs.length) (h3 : checkedCount cbs = 3)
    (hc : (cbs.get ⟨i, hi⟩).checked = false) : click cbs i = (cbs, true) := by
  unfold click limitPreferencesHandler
  rw [getD_eq_get cbs i ⟨false, ""⟩ hi, hc]
  simp only [Bool.not_false]
  rw [checkedCount_setChecked_true_of_unchecked cbs i hi hc] at *
  simp only [h3]
  rw [if_pos (by omega)]
  rw [setChecked_setChecked, setChecked_false_of_unchecked cbs i hi hc]

/-- The two independent checkbox groups on the page:
`.preference-check` (location form) and `.image-preference-check`
(image form).  `limitPreferences` is applied to each group separately. -/
structure PageCheckboxes where
  prefGroup : List Checkbox
  imagePrefGroup : List Checkbox
deriving DecidableEq

/-- A toggle event names the group it happens in and the index within it. -/
inductive PrefEvent where
  | loc (i : Nat)
  | img (i : Nat)
deriving DecidableEq

/-- A toggle on the page: the `change` listener of the toggled group runs;
the listener's closure counts only over its own group. -/
def pageClick (p : PageCheckboxes) (e : PrefEvent) : PageCheckboxes × Bool :=
  match e with
  | .loc i =>
    let r := click p.prefGroup i
    ({ p with prefGroup := r.1 }, r.2)
  | .img i =>
    let r := click p.imagePrefGroup i
    ({ p with imagePrefGroup := r.1 }, r.2)

/-- `getSelectedPreferences`: the values of the checked boxes, in DOM order. -/
def getSelectedPreferences (cbs : List Checkbox) : List String :=
  (cbs.filter (fun cb => cb.checked)).map (fun cb => cb.value)

/-- JavaScript `String.prototype.trim`: strips leading and trailing
whitespace. -/
def trimString (s : String) : String :=
  String.mk
    (((s.data.dropWhile Char.isWhitespace).reverse.dropWhile
        Char.isWhitespace).reverse)

/-- `API_BASE_URL` from app.js. -/
def API_BASE_URL : String := "http://localhost:8000"

/-- A destination object returned by the suggestion backend. -/
structure Destination where
  name : String
  description : String
  budget_level : String
  best_time : String
  attractions : List String
deriving DecidableEq

/-- The data rendered into one destination card by `createDestinationCard`. -/
structure Card where
  title : String
  badgeClass : String
  badgeText : String
  description : String
  bestTime : String
  attractions : List String
  weatherTarget : String
deriving DecidableEq

/-- `createDestinationCard(destination, index)`: builds one card; the badge
class is `bg-warning text-dark` for Moderate, `bg-danger` for Luxury and
`bg-success` otherwise; the weather button targets the destination name. -/
def createDestinationCard (destination : Destination) (index : Nat) : Card :=
  let badgeClass :=
    if destination.budget_level = "Moderate" then "bg-warning text-dark"
    else if destination.budget_level = "Luxury" then "bg-danger"
    else "bg-success"
  { title := destination.name
    badgeClass := badgeClass
    badgeText := destination.budget_level
    description := destination.description
    bestTime := destination.best_time
    attractions := destination.attractions
    weatherTarget := destination.name }

/-- The `destinations.forEach((destination, index) => ...)` loop of
`displaySuggestions`: one card per destination, in order, with its index. -/
def renderCards : List Destination → Nat → List Card
  | [], _ => []
  | d :: ds, index => createDestinationCard d index :: renderCards ds (index + 1)

/-- UI state touched by the suggestion flows: the loading spinner, the
results section visibility and the cards inside `resultsContainer`. -/
structure UiState where
  spinnerVisible : Bool
  resultsVisible : Bool
  cards : List Card
deriving DecidableEq

/-- `showLoading()`: shows the spinner and hides the results section. -/
def showLoading (ui : UiState) : UiState :=
  { ui with spinnerVisible := true, resultsVisible := false }

/-- `hideLoading()`: hides the spinner only. -/
def hideLoading (ui : UiState) : UiState :=
  { ui with spinnerVisible := false }

/-- `displaySuggestions(destinations)`: clears `resultsContainer.innerHTML`,
appends one card per destination and shows the results section. -/
def displaySuggestions (destinations : List Destination) (ui : UiState) :
    UiState :=
  { ui with cards := renderCards destinations 0, resultsVisible := true }

/-- One hex digit, lower case, as produced by `JSON.stringify` escapes. -/
def hexDigit (n : Nat) : Char :=
  if n < 10 then Char.ofNat (48 + n) else Char.ofNat (87 + n)

/-- `JSON.stringify` escaping of one character inside a string literal. -/
def jsonEscapeChar (c : Char) : String :=
  if c = '"' then "\\\""
  else if c = '\\' then "\\\\"
  else if c = '\x08' then "\\b"
  else if c = '\x09' then "\\t"
  else if c = '\x0a' then "\\n"
  else if c = '\x0c' then "\\f"
  else if c = '\x0d' then "\\r"
  else if c.toNat < 32 then
    "\\u00" ++ String.mk [hexDigit (c.toNat / 16), hexDigit (c.toNat % 16)]
  else String.singleton c

/-- `JSON.stringify` of a string value. -/
def jsonString (s : String) : String :=
  "\"" ++ String.join (s.data.map jsonEscapeChar) ++ "\""

/-- `JSON.stringify({location: location, preferences: preferences})`. -/
def stringifyLocationBody (location : String) (preferences : List String) :
    String :=
  "\x7b\"location\":" ++ jsonString location ++ ",\"preferences\":[" ++
    String.intercalate "," (preferences.map jsonString) ++ "]\x7d"

/-- `JSON.stringify({destination: destination})`. -/
def stringifyWeatherBody (destination : String) : String :=
  "\x7b\"destination\":" ++ jsonString destination ++ "\x7d"

/-- An uploaded image file, opaque to the client beyond its identity. -/
structure ImageFile where
  name : String
  bytes : List Nat
deriving DecidableEq

/-- The body of an outgoing request: either a JSON string, or multipart
form data holding the `file` entry and an optional `preferences` entry. -/
inductive RequestBody where
  | jsonBody (s : String)
  | multipart (file : ImageFile) (preferences : Option String)
deriving DecidableEq

/-- One `fetch` call as issued by the client. -/
structure RequestInfo where
  url : String
  method : String
  contentTypeHeader : Option String
  body : RequestBody
deriving DecidableEq

/-- The outcome of the single `fetch` of a handler: either the promise
rejects (transport error) or a response with an HTTP status arrives and
its JSON payload parses to `data`. -/
inductive Outcome (α : Type) where
  | transportError
  | response (status : Nat) (data : α)
deriving DecidableEq

/-- `Response.ok`: status in the inclusive range 200–299. -/
def statusOk (status : Nat) : Bool :=
  decide (200 ≤ status) && decide (status ≤ 299)

/-- An outcome the `catch` block fires on: transport error or non-2xx. -/
def isFailure {α : Type} : Outcome α → Bool
  | .transportError => true
  | .response status _ => !(statusOk status)

/-- Payload of a successful suggestion response. -/
structure SuggestResponse where
  destinations : List Destination
deriving DecidableEq

/-- A toast notification created by `showToast(message, type)`. -/
structure Toast where
  message : String
  kind : String
deriving DecidableEq

/-- What one run of a submit handler did: the request it issued (if any),
the toasts it showed, whether it entered and left the loading state, and
the UI state it left behind. -/
structure SubmitTrace where
  request : Option RequestInfo
  toasts : List Toast
  showedLoading : Bool
  hidLoading : Bool
  final : UiState
deriving DecidableEq

/-- The `locationForm` submit handler: trims the location input, reads the
location-form preference group, rejects an empty location with a warning
toast and no fetch, and otherwise POSTs JSON to `/api/suggest-by-location`
and renders or reports the outcome. -/
def locationSubmit (rawInput : String) (cbs : List Checkbox)
    (outcome : Outcome SuggestResponse) (ui : UiState) : SubmitTrace :=
  let location := trimString rawInput
  let preferences := getSelectedPreferences cbs
  if location = "" then
    { request := none
      toasts := [{ message := "Please enter a location", kind := "warning" }]
      showedLoading := false
      hidLoading := false
      final := ui }
  else
    let req : RequestInfo :=
      { url := API_BASE_URL ++ "/api/suggest-by-location"
        method := "POST"
        contentTypeHeader := some "application/json"
        body := .jsonBody (stringifyLocationBody location preferences) }
    match outcome with
    | .transportError =>
      { request := some req
        toasts := [{ message := "Error fetching travel suggestions. Please try again."
                     kind := "danger" }]
        showedLoading := true
        hidLoading := true
        final := hideLoading (showLoading ui) }
    | .response status data =>
      if statusOk status then
        { request := some req
          toasts := []
          showedLoading := true
          hidLoading := true
          final := displaySuggestions data.destinations (hideLoading (showLoading ui)) }
      else
        { request := some req
          toasts := [{ message := "Error fetching travel suggestions. Please try again."
                       kind := "danger" }]
          showedLoading := true
          hidLoading := true
          final := hideLoading (showLoading ui) }

/-- The `imageForm` submit handler: rejects a missing file with a warning
toast and no fetch; otherwise builds multipart form data with the file
and, only when at least one preference is selected, a comma-joined
`preferences` entry, POSTs it to `/api/suggest-by-image`, and renders or
reports the outcome. -/
def imageSubmit (file : Option ImageFile) (cbs : List Checkbox)
    (outcome : Outcome SuggestResponse) (ui : UiState) : SubmitTrace :=
  let preferences := getSelectedPreferences cbs
  match file with
  | none =>
    { request := none
      toasts := [{ message := "Please select an image", kind := "warning" }]
      showedLoading := false
      hidLoading := false
      final := ui }
  | some f =>
    let req : RequestInfo :=
      { url := API_BASE_URL ++ "/api/suggest-by-image"
        method := "POST"
        contentTypeHeader := none
        body := .multipart f
          (if preferences.length > 0
           then some (String.intercalate "," preferences)
           else none) }
    match outcome with
    | .transportError =>
      { request := some req
        toasts := [{ message := "Error processing image. Please try again."
                     kind := "danger" }]
        showedLoading := true
        hidLoading := true
        final := hideLoading (showLoading ui) }
    | .response status data =>
      if statusOk status then
        { request := some req
          toasts := []
          showedLoading := true
          hidLoading := true
          final := displaySuggestions data.destinations (hideLoading (showLoading ui)) }
      else
        { request := some req
          toasts := [{ message := "Error processing image. Please try again."
                       kind := "danger" }]
          showedLoading := true
          hidLoading := true
          final := hideLoading (showLoading ui) }

/-- The loading/result/error state machine of a submit trace: its loading
transitions, final UI state and the kinds of toasts shown (toast texts
differ between the two forms; the state machine does not). -/
def stateTransitions (t : SubmitTrace) : Bool × Bool × UiState × List String :=
  (t.showedLoading, t.hidLoading, t.final, t.toasts.map (fun toast => toast.kind))

/-- Structured weather data inside a weather response. -/
structure WeatherData where
  location : String
  temperature : Int
  unit : String
  condition : String
  humidity : String
  wind_speed : String
deriving DecidableEq

/-- Payload of a weather response: both parts may be absent. -/
structure WeatherResult where
  weather_data : Option WeatherData
  description : Option String
deriving DecidableEq

/-- The structured block `displayWeather` renders when `weather_data` is
truthy: location heading, temperature display with unit letter, condition,
humidity and wind speed. -/
structure StructuredWeatherView where
  location : String
  temperatureText : String
  condition : String
  humidity : String
  windSpeed : String
deriving DecidableEq

/-- Contents of the `weatherContent` element of the modal. -/
inductive WeatherContent where
  | loading
  | info (structured : Option StructuredWeatherView) (insight : Option String)
  | errorBlock (message : String)
deriving DecidableEq

/-- `displayWeather(data, destination)`: renders the structured block when
`weather_data` is truthy and the AI-insight block when `description` is
truthy (a present but empty description string is falsy in the source and
renders nothing); the unit letter is `C` exactly when `unit === 'celsius'`
and `F` otherwise. -/
def displayWeather (data : WeatherResult) : WeatherContent :=
  let weatherData := data.weather_data
  let description := data.description
  .info
    (weatherData.map fun w =>
      { location := w.location
        temperatureText :=
          toString w.temperature ++ "°" ++ (if w.unit = "celsius" then "C" else "F")
        condition := w.condition
        humidity := w.humidity
        windSpeed := w.wind_speed })
    (match description with
     | some d => if d = "" then none else some d
     | none => none)

/-- The structured block of a rendered `weatherContent`, when present. -/
def structuredOf : WeatherContent → Option StructuredWeatherView
  | .info s _ => s
  | _ => none

/-- The AI-insight block of a rendered `weatherContent`, when present. -/
def insightOf : WeatherContent → Option String
  | .info _ d => d
  | _ => none

/-- What one run of `getWeather` did: the modal was shown (never closed by
the handler), the request it issued, any toasts, and the final contents of
`weatherContent`. -/
structure WeatherModalTrace where
  modalShown : Bool
  modalClosed : Bool
  request : Option RequestInfo
  toasts : List Toast
  content : WeatherContent
deriving DecidableEq

/-- `getWeather(destination)`: fills the modal with a loading block, shows
the modal, POSTs JSON `\x7bdestination\x7d` to `/api/weather`, and renders
either the weather data or an inline error block inside the modal. -/
def getWeather (destination : String) (outcome : Outcome WeatherResult) :
    WeatherModalTrace :=
  let req : RequestInfo :=
    { url := API_BASE_URL ++ "/api/weather"
      method := "POST"
      contentTypeHeader := some "application/json"
      body := .jsonBody (stringifyWeatherBody destination) }
  match outcome with
  | .transportError =>
    { modalShown := true
      modalClosed := false
      request := some req
      toasts := []
      content := .errorBlock "Error fetching weather information. Please try again." }
  | .response status data =>
    if statusOk status then
      { modalShown := true
        modalClosed := false
        request := some req
        toasts := []
        content := displayWeather data }
    else
      { modalShown := true
        modalClosed := false
        request := some req
        toasts := []
        content := .errorBlock "Error fetching weather information. Please try again." }

theorem renderCards_length (destinations : List Destination) (k : Nat) :
    (renderCards destinations k).length = destinations.length := by
  induction destinations generalizing k with
  | nil => rfl
  | cons d ds ih => simp [renderCards, ih]

theorem renderCards_getElem (destinations : List Destination) (k i : Nat) :
    (renderCards destinations k)[i]? =
      (destinations[i]?).map (fun d => createDestinationCard d (k + i)) := by
  induction destinations generalizing k i with
  | nil => simp [renderCards]
  | cons d ds ih =>
    cases i with
    | zero => simp [renderCards]
    | succ n =>
      have harith : k + 1 + n = k + (n + 1) := by omega
      simp only [renderCards, List.getElem?_cons_succ]
      rw [ih (k + 1) n, harith]

/-- C1: over any sequence of preference toggles in one checkbox group the
checked set never exceeds 3 members, and a 4th selection attempt is itself
reverted, leaves the group unchanged and requests a warning toast. -/
theorem C1_preference_cap_and_revert :
    (∀ (cbs : List Checkbox) (evs : List Nat),
        checkedCount cbs ≤ 3 → checkedCount (clicks cbs evs) ≤ 3) ∧
    (∀ (cbs : List Checkbox) (i : Nat) (hi : i < cbs.length),
        checkedCount cbs = 3 → (cbs.get ⟨i, hi⟩).checked = false →
        click cbs i = (cbs, true)) :=
  ⟨fun cbs evs h => clicks_checkedCount_le cbs evs h,
   fun cbs i hi h3 hc => click_fourth_reverted cbs i hi h3 hc⟩

theorem C1_preference_cap_and_revert_witness :
    checkedCount (clicks
      [⟨true, "Beach"⟩, ⟨true, "History"⟩, ⟨true, "Food"⟩, ⟨false, "Nature"⟩]
      [3, 0, 3]) ≤ 3 ∧
    click [⟨true, "Beach"⟩, ⟨true, "History"⟩, ⟨true, "Food"⟩, ⟨false, "Nature"⟩] 3 =
      ([⟨true, "Beach"⟩, ⟨true, "History"⟩, ⟨true, "Food"⟩, ⟨false, "Nature"⟩], true) :=
  ⟨C1_preference_cap_and_revert.1 _ _ (by decide),
   C1_preference_cap_and_revert.2 _ 3 (by decide) (by decide) (by decide)⟩

/-- C10: the two preference groups are independent: a toggle in one group
never changes the other group, the cap of 3 is enforced per group, and at
most 6 preferences can be selected across the page. -/
theorem C10_independent_groups (p : PageCheckboxes) (i : Nat) (e : PrefEvent) :
    ((pageClick p (.loc i)).1.imagePrefGroup = p.imagePrefGroup) ∧
    ((pageClick p (.img i)).1.prefGroup = p.prefGroup) ∧
    (checkedCount p.prefGroup ≤ 3 → checkedCount p.imagePrefGroup ≤ 3 →
      checkedCount (pageClick p e).1.prefGroup ≤ 3 ∧
      checkedCount (pageClick p e).1.imagePrefGroup ≤ 3 ∧
      checkedCount (pageClick p e).1.prefGroup +
        checkedCount (pageClick p e).1.imagePrefGroup ≤ 6) := by
  refine ⟨rfl, rfl, fun h1 h2 => ?_⟩
  cases e with
  | loc j =>
    have ha : checkedCount (pageClick p (.loc j)).1.prefGroup ≤ 3 :=
      click_checkedCount_le p.prefGroup j h1
    have hb : checkedCount (pageClick p (.loc j)).1.imagePrefGroup ≤ 3 := h2
    exact ⟨ha, hb, by omega⟩
  | img j =>
    have ha : checkedCount (pageClick p (.img j)).1.prefGroup ≤ 3 := h1
    have hb : checkedCount (pageClick p (.img j)).1.imagePrefGroup ≤ 3 :=
      click_checkedCount_le p.imagePrefGroup j h2
    exact ⟨ha, hb, by omega⟩

theorem C10_independent_groups_witness :
    ((pageClick ⟨[⟨true, "Beach"⟩], [⟨false, "Nature"⟩]⟩ (.loc 0)).1.imagePrefGroup
        = [⟨false, "Nature"⟩]) ∧
    ((pageClick ⟨[⟨true, "Beach"⟩], [⟨false, "Nature"⟩]⟩ (.img 0)).1.prefGroup
        = [⟨true, "Beach"⟩]) ∧
    (checkedCount [⟨true, "Beach"⟩] ≤ 3 → checkedCount [⟨false, "Nature"⟩] ≤ 3 →
      checkedCount (pageClick ⟨[⟨true, "Beach"⟩], [⟨false, "Nature"⟩]⟩ (.img 0)).1.prefGroup ≤ 3 ∧
      checkedCount (pageClick ⟨[⟨true, "Beach"⟩], [⟨false, "Nature"⟩]⟩ (.img 0)).1.imagePrefGroup ≤ 3 ∧
      checkedCount (pageClick ⟨[⟨true, "Beach"⟩], [⟨false, "Nature"⟩]⟩ (.img 0)).1.prefGroup +
        checkedCount (pageClick ⟨[⟨true, "Beach"⟩], [⟨false, "Nature"⟩]⟩ (.img 0)).1.imagePrefGroup ≤ 6) :=
  C10_independent_groups ⟨[⟨true, "Beach"⟩], [⟨false, "Nature"⟩]⟩ 0 (.img 0)

/-- C2: submitting the location form with a location that trims to empty
issues no fetch, enters no loading state, leaves the UI unchanged and
shows a warning toast. -/
theorem C2_empty_location_no_fetch (rawInput : String) (cbs : List Checkbox)
    (outcome : Outcome SuggestResponse) (ui : UiState)
    (h : trimString rawInput = "") :
    (locationSubmit rawInput cbs outcome ui).request = none ∧
    (locationSubmit rawInput cbs outcome ui).showedLoading = false ∧
    (locationSubmit rawInput cbs outcome ui).final = ui ∧
    (locationSubmit rawInput cbs outcome ui).toasts =
      [{ message := "Please enter a location", kind := "warning" }] := by
  simp [locationSubmit, h]

theorem C2_empty_location_no_fetch_witness :
    trimString "   " = "" ∧
    ((locationSubmit "   " [] .transportError ⟨false, false, []⟩).request = none ∧
     (locationSubmit "   " [] .transportError ⟨false, false, []⟩).showedLoading = false ∧
     (locationSubmit "   " [] .transportError ⟨false, false, []⟩).final = ⟨false, false, []⟩ ∧
     (locationSubmit "   " [] .transportError ⟨false, false, []⟩).toasts =
       [{ message := "Please enter a location", kind := "warning" }]) :=
  ⟨by decide,
   C2_empty_location_no_fetch "   " [] .transportError ⟨false, false, []⟩ (by decide)⟩

/-- C3: submitting the image form with no file selected issues no fetch,
enters no loading state, leaves the UI unchanged and shows a warning
toast. -/
theorem C3_no_file_no_fetch (cbs : List Checkbox)
    (outcome : Outcome SuggestResponse) (ui : UiState) :
    (imageSubmit none cbs outcome ui).request = none ∧
    (imageSubmit none cbs outcome ui).showedLoading = false ∧
    (imageSubmit none cbs outcome ui).final = ui ∧
    (imageSubmit none cbs outcome ui).toasts =
      [{ message := "Please select an image", kind := "warning" }] :=
  ⟨rfl, rfl, rfl, rfl⟩

/-- C4: rendering a successful response with N destinations produces
exactly N cards, the i-th card built from the i-th destination (order
preserved), independently of whatever was rendered before (replacement,
not appending), and makes the results section visible. -/
theorem C4_renders_exactly_n_cards (destinations : List Destination)
    (ui ui' : UiState) :
    ((displaySuggestions destinations ui).cards.length = destinations.length) ∧
    (∀ i : Nat, (displaySuggestions destinations ui).cards[i]? =
      (destinations[i]?).map (fun d => createDestinationCard d i)) ∧
    ((displaySuggestions destinations ui).cards =
      (displaySuggestions destinations ui').cards) ∧
    ((displaySuggestions destinations ui).resultsVisible = true) := by
  refine ⟨?_, ?_, rfl, rfl⟩
  · simp [displaySuggestions, renderCards_length]
  · intro i
    have h := renderCards_getElem destinations 0 i
    simpa [displaySuggestions] using h

theorem string_append_assoc (a b c : String) : a ++ b ++ c = a ++ (b ++ c) := by
  cases a with
  | mk la =>
    cases b with
    | mk lb =>
      cases c with
      | mk lc =>
        show String.mk (la ++ lb ++ lc) = String.mk (la ++ (lb ++ lc))
        rw [List.append_assoc]

/-- C5: any failing suggestion request (transport error or non-2xx status,
of any status code and payload) produces exactly the same trace as any
other failure of the same form: loading is reverted, a single generic
danger toast is shown, and the single fetch is not retried. -/
theorem C5_uniform_failure_handling (rawInput : String) (cbs : List Checkbox)
    (ui : UiState) (file : ImageFile) (outcome : Outcome SuggestResponse)
    (hloc : ¬ trimString rawInput = "") (hfail : isFailure outcome = true) :
    (locationSubmit rawInput cbs outcome ui =
      locationSubmit rawInput cbs .transportError ui) ∧
    ((locationSubmit rawInput cbs outcome ui).hidLoading = true) ∧
    ((locationSubmit rawInput cbs outcome ui).final.spinnerVisible = false) ∧
    ((locationSubmit rawInput cbs outcome ui).toasts =
      [{ message := "Error fetching travel suggestions. Please try again."
         kind := "danger" }]) ∧
    (imageSubmit (some file) cbs outcome ui =
      imageSubmit (some file) cbs .transportError ui) ∧
    ((imageSubmit (some file) cbs outcome ui).hidLoading = true) ∧
    ((imageSubmit (some file) cbs outcome ui).final.spinnerVisible = false) ∧
    ((imageSubmit (some file) cbs outcome ui).toasts =
      [{ message := "Error processing image. Please try again."
         kind := "danger" }]) := by
  cases outcome with
  | transportError =>
    refine ⟨rfl, ?_, ?_, ?_, rfl, ?_, ?_, ?_⟩ <;>
      simp [locationSubmit, imageSubmit, hloc, hideLoading, showLoading]
  | response status data =>
    have hok : statusOk status = false := by
      simpa [isFailure] using hfail
    refine ⟨?_, ?_, ?_, ?_, ?_, ?_, ?_, ?_⟩ <;>
      simp [locationSubmit, imageSubmit, hloc, hok, hideLoading, showLoading]

theorem C5_uniform_failure_handling_witness :
    (¬ trimString "Kyoto" = "") ∧
    isFailure (Outcome.response 500 (SuggestResponse.mk [])) = true ∧
    ((locationSubmit "Kyoto" [] (.response 500 ⟨[]⟩) ⟨false, false, []⟩ =
        locationSubmit "Kyoto" [] .transportError ⟨false, false, []⟩) ∧
     ((locationSubmit "Kyoto" [] (.response 500 ⟨[]⟩) ⟨false, false, []⟩).hidLoading = true) ∧
     ((locationSubmit "Kyoto" [] (.response 500 ⟨[]⟩) ⟨false, false, []⟩).final.spinnerVisible = false) ∧
     ((locationSubmit "Kyoto" [] (.response 500 ⟨[]⟩) ⟨false, false, []⟩).toasts =
       [{ message := "Error fetching travel suggestions. Please try again."
          kind := "danger" }]) ∧
     (imageSubmit (some ⟨"photo.png", []⟩) [] (.response 500 ⟨[]⟩) ⟨false, false, []⟩ =
        imageSubmit (some ⟨"photo.png", []⟩) [] .transportError ⟨false, false, []⟩) ∧
     ((imageSubmit (some ⟨"photo.png", []⟩) [] (.response 500 ⟨[]⟩) ⟨false, false, []⟩).hidLoading = true) ∧
     ((imageSubmit (some ⟨"photo.png", []⟩) [] (.response 500 ⟨[]⟩) ⟨false, false, []⟩).final.spinnerVisible = false) ∧
     ((imageSubmit (some ⟨"photo.png", []⟩) [] (.response 500 ⟨[]⟩) ⟨false, false, []⟩).toasts =
       [{ message := "Error processing image. Please try again."
          kind := "danger" }])) :=
  ⟨by decide, by decide,
   C5_uniform_failure_handling "Kyoto" [] ⟨false, false, []⟩ ⟨"photo.png", []⟩
     (.response 500 ⟨[]⟩) (by decide) (by decide)⟩

/-- C6: a failing weather request renders the inline error block inside the
modal content; the modal stays open and no toast is shown. -/
theorem C6_weather_failure_inline_error (destination : String)
    (outcome : Outcome WeatherResult) (hfail : isFailure outcome = true) :
    ((getWeather destination outcome).content =
      .errorBlock "Error fetching weather information. Please try again.") ∧
    ((getWeather destination outcome).modalShown = true) ∧
    ((getWeather destination outcome).modalClosed = false) ∧
    ((getWeather destination outcome).toasts = []) := by
  cases outcome with
  | transportError => exact ⟨rfl, rfl, rfl, rfl⟩
  | response status data =>
    have hok : statusOk status = false := by
      simpa [isFailure] using hfail
    refine ⟨?_, ?_, ?_, ?_⟩ <;> simp [getWeather, hok]

theorem C6_weather_failure_inline_error_witness :
    isFailure (Outcome.response 404 (WeatherResult.mk none none)) = true ∧
    (((getWeather "Kyoto" (.response 404 ⟨none, none⟩)).content =
       .errorBlock "Error fetching weather information. Please try again.") ∧
     ((getWeather "Kyoto" (.response 404 ⟨none, none⟩)).modalShown = true) ∧
     ((getWeather "Kyoto" (.response 404 ⟨none, none⟩)).modalClosed = false) ∧
     ((getWeather "Kyoto" (.response 404 ⟨none, none⟩)).toasts = [])) :=
  ⟨by decide, C6_weather_failure_inline_error "Kyoto" (.response 404 ⟨none, none⟩) (by decide)⟩

/-- C7 counterexample: an image submission with a file but no selected
preference issues a multipart request whose body omits the `preferences`
entry entirely; it does not carry the comma-join of the (empty) selection
as a string, so the request is not, as claimed, the file plus the selected
preferences encoded as one comma-joined string. -/
theorem C7_counterexample :
    ((imageSubmit (some ⟨"photo.png", [1, 2, 3]⟩) [⟨false, "Beach"⟩]
        (.response 200 ⟨[]⟩) ⟨false, false, []⟩).request =
      some { url := "http://localhost:8000/api/suggest-by-image"
             method := "POST"
             contentTypeHeader := none
             body := .multipart ⟨"photo.png", [1, 2, 3]⟩ none }) ∧
    (RequestBody.multipart ⟨"photo.png", [1, 2, 3]⟩ none ≠
      RequestBody.multipart ⟨"photo.png", [1, 2, 3]⟩
        (some (String.intercalate "," []))) := by
  decide

/-- C7 (amended): an image submission with a file POSTs multipart form
data to the image-suggestion endpoint holding the file and, exactly when
at least one preference is selected, the selected preferences as one
comma-joined string (with no selection the entry is omitted); and the
submission follows the same loading/result/error state transitions as the
location flow. -/
theorem C7_multipart_and_state_machine (file : ImageFile)
    (cbs : List Checkbox) (outcome : Outcome SuggestResponse) (ui : UiState)
    (rawInput : String) (hloc : ¬ trimString rawInput = "") :
    ((imageSubmit (some file) cbs outcome ui).request =
      some { url := API_BASE_URL ++ "/api/suggest-by-image"
             method := "POST"
             contentTypeHeader := none
             body := .multipart file
               (if getSelectedPreferences cbs = [] then none
                else some (String.intercalate "," (getSelectedPreferences cbs))) }) ∧
    (¬ getSelectedPreferences cbs = [] →
      (imageSubmit (some file) cbs outcome ui).request =
        some { url := API_BASE_URL ++ "/api/suggest-by-image"
               method := "POST"
               contentTypeHeader := none
               body := .multipart file
                 (some (String.intercalate "," (getSelectedPreferences cbs))) }) ∧
    (stateTransitions (imageSubmit (some file) cbs outcome ui) =
      stateTransitions (locationSubmit rawInput cbs outcome ui)) := by
  have hreq : (imageSubmit (some file) cbs outcome ui).request =
      some { url := API_BASE_URL ++ "/api/suggest-by-image"
             method := "POST"
             contentTypeHeader := none
             body := .multipart file
               (if getSelectedPreferences cbs = [] then none
                else some (String.intercalate "," (getSelectedPreferences cbs))) } := by
    by_cases hp : getSelectedPreferences cbs = [] <;>
      cases outcome with
      | transportError => simp [imageSubmit, hp, List.length_pos]
      | response status data =>
        by_cases hok : statusOk status <;>
          simp [imageSubmit, hp, hok, List.length_pos]
  refine ⟨hreq, fun hp => ?_, ?_⟩
  · rw [hreq]
    simp [hp]
  · cases outcome with
    | transportError =>
      simp [imageSubmit, locationSubmit, stateTransitions, hloc]
    | response status data =>
      by_cases hok : statusOk status <;>
        simp [imageSubmit, locationSubmit, stateTransitions, hloc, hok]

theorem C7_multipart_and_state_machine_witness :
    (¬ trimString "Kyoto" = "") ∧
    (((imageSubmit (some ⟨"photo.png", [1]⟩) [⟨true, "History"⟩, ⟨true, "Food"⟩]
          (.response 200 ⟨[]⟩) ⟨false, false, []⟩).request =
        some { url := API_BASE_URL ++ "/api/suggest-by-image"
               method := "POST"
               contentTypeHeader := none
               body := .multipart ⟨"photo.png", [1]⟩
                 (if getSelectedPreferences [⟨true, "History"⟩, ⟨true, "Food"⟩] = [] then none
                  else some (String.intercalate ","
                    (getSelectedPreferences [⟨true, "History"⟩, ⟨true, "Food"⟩]))) }) ∧
     (¬ getSelectedPreferences [⟨true, "History"⟩, ⟨true, "Food"⟩] = [] →
       (imageSubmit (some ⟨"photo.png", [1]⟩) [⟨true, "History"⟩, ⟨true, "Food"⟩]
           (.response 200 ⟨[]⟩) ⟨false, false, []⟩).request =
         some { url := API_BASE_URL ++ "/api/suggest-by-image"
                method := "POST"
                contentTypeHeader := none
                body := .multipart ⟨"photo.png", [1]⟩
                  (some (String.intercalate ","
                    (getSelectedPreferences [⟨true, "History"⟩, ⟨true, "Food"⟩]))) }) ∧
     (stateTransitions (imageSubmit (some ⟨"photo.png", [1]⟩)
         [⟨true, "History"⟩, ⟨true, "Food"⟩] (.response 200 ⟨[]⟩) ⟨false, false, []⟩) =
       stateTransitions (locationSubmit "Kyoto" [⟨true, "History"⟩, ⟨true, "Food"⟩]
         (.response 200 ⟨[]⟩) ⟨false, false, []⟩))) :=
  ⟨by decide,
   C7_multipart_and_state_machine ⟨"photo.png", [1]⟩
     [⟨true, "History"⟩, ⟨true, "Food"⟩] (.response 200 ⟨[]⟩) ⟨false, false, []⟩
     "Kyoto" (by decide)⟩

/-- The single Moderate-budget Kyoto destination of the worked example. -/
def kyotoDest : Destination :=
  { name := "Kyoto"
    description := "Ancient capital"
    budget_level := "Moderate"
    best_time := "Spring"
    attractions := ["Fushimi Inari"] }

/-- C8: submitting location "Kyoto" with preference "History" issues one
POST to `/api/suggest-by-location` with the exact JSON body; a Moderate
destination renders one card titled "Kyoto" whose badge class carries
`bg-warning`; a Luxury budget yields `bg-danger` and any other budget
yields `bg-success`. -/
theorem C8_kyoto_example (d : Destination) :
    ((locationSubmit "Kyoto" [⟨true, "History"⟩] (.response 200 ⟨[kyotoDest]⟩)
        ⟨false, false, []⟩).request =
      some { url := "http://localhost:8000/api/suggest-by-location"
             method := "POST"
             contentTypeHeader := some "application/json"
             body := .jsonBody
               "\x7b\"location\":\"Kyoto\",\"preferences\":[\"History\"]\x7d" }) ∧
    ((locationSubmit "Kyoto" [⟨true, "History"⟩] (.response 200 ⟨[kyotoDest]⟩)
        ⟨false, false, []⟩).final.cards = [createDestinationCard kyotoDest 0]) ∧
    ((createDestinationCard kyotoDest 0).title = "Kyoto") ∧
    ((createDestinationCard kyotoDest 0).badgeClass = "bg-warning text-dark") ∧
    ("bg-warning".data.isPrefixOf (createDestinationCard kyotoDest 0).badgeClass.data = true) ∧
    (d.budget_level = "Luxury" →
      (createDestinationCard d 0).badgeClass = "bg-danger") ∧
    (¬ d.budget_level = "Moderate" → ¬ d.budget_level = "Luxury" →
      (createDestinationCard d 0).badgeClass = "bg-success") := by
  refine ⟨by decide, by decide, by decide, by decide, by decide, ?_, ?_⟩
  · intro h
    simp [createDestinationCard, h]
  · intro h1 h2
    simp [createDestinationCard, h1, h2]

theorem C8_kyoto_example_witness :
    ((createDestinationCard ⟨"Paris", "City of Light", "Luxury", "Summer", ["Louvre"]⟩ 0).badgeClass
      = "bg-danger") ∧
    ((createDestinationCard ⟨"Hanoi", "Old quarter", "Budget", "Autumn", ["Lakes"]⟩ 0).badgeClass
      = "bg-success") :=
  ⟨(C8_kyoto_example ⟨"Paris", "City of Light", "Luxury", "Summer", ["Louvre"]⟩).2.2.2.2.2.1 rfl,
   (C8_kyoto_example ⟨"Hanoi", "Old quarter", "Budget", "Autumn", ["Lakes"]⟩).2.2.2.2.2.2
     (by decide) (by decide)⟩

/-- C9 counterexample: a weather response whose `description` is present
but is the empty string renders no AI-insight block (the empty string is
falsy in the source), refuting the claim that the description is rendered
exactly when present. -/
theorem C9_counterexample :
    (displayWeather { weather_data := none, description := some "" } =
      .info none none) ∧
    (insightOf (displayWeather { weather_data := none, description := some "" }) ≠
      some "") := by
  decide

/-- C9 (amended): a successful weather response renders the structured
block (location, temperature, condition, humidity, wind speed) exactly
when `weather_data` is present, with the temperature unit shown as `°C`
when `unit` equals `"celsius"` and as `°F` otherwise, and renders the
free-text description exactly when it is present and non-empty. -/
theorem C9_weather_rendering (data : WeatherResult) (w : WeatherData)
    (d : String) :
    (data.weather_data = some w → w.unit = "celsius" →
      structuredOf (displayWeather data) =
        some { location := w.location
               temperatureText := toString w.temperature ++ "°C"
               condition := w.condition
               humidity := w.humidity
               windSpeed := w.wind_speed }) ∧
    (data.weather_data = some w → ¬ w.unit = "celsius" →
      structuredOf (displayWeather data) =
        some { location := w.location
               temperatureText := toString w.temperature ++ "°F"
               condition := w.condition
               humidity := w.humidity
               windSpeed := w.wind_speed }) ∧
    (data.weather_data = none → structuredOf (displayWeather data) = none) ∧
    (data.description = some d → ¬ d = "" →
      insightOf (displayWeather data) = some d) ∧
    (data.description = some "" → insightOf (displayWeather data) = none) ∧
    (data.description = none → insightOf (displayWeather data) = none) := by
  refine ⟨?_, ?_, ?_, ?_, ?_, ?_⟩
  · intro hw hu
    simp only [displayWeather, structuredOf, hw, Option.map]
    rw [hu]
    simp only [if_pos]
    rw [string_append_assoc]
    rfl
  · intro hw hu
    simp only [displayWeather, structuredOf, hw, Option.map]
    rw [if_neg hu]
    rw [string_append_assoc]
    rfl
  · intro hw
    simp [displayWeather, structuredOf, hw]
  · intro hd hne
    simp [displayWeather, insightOf, hd, hne]
  · intro hd
    simp [displayWeather, insightOf, hd]
  · intro hd
    simp [displayWeather, insightOf, hd]

theorem C9_weather_rendering_witness :
    ((WeatherResult.mk (some ⟨"Kyoto", 25, "celsius", "Sunny", "60%", "10 km/h"⟩)
        (some "Pleasant spring day")).weather_data =
      some ⟨"Kyoto", 25, "celsius", "Sunny", "60%", "10 km/h"⟩) ∧
    (structuredOf (displayWeather
        (WeatherResult.mk (some ⟨"Kyoto", 25, "celsius", "Sunny", "60%", "10 km/h"⟩)
          (some "Pleasant spring day"))) =
      some { location := "Kyoto"
             temperatureText := toString (25 : Int) ++ "°C"
             condition := "Sunny"
             humidity := "60%"
             windSpeed := "10 km/h" }) ∧
    (insightOf (displayWeather
        (WeatherResult.mk (some ⟨"Kyoto", 25, "celsius", "Sunny", "60%", "10 km/h"⟩)
          (some "Pleasant spring day"))) = some "Pleasant spring day") :=
  ⟨rfl,
   (C9_weather_rendering
      (WeatherResult.mk (some ⟨"Kyoto", 25, "celsius", "Sunny", "60%", "10 km/h"⟩)
        (some "Pleasant spring day"))
      ⟨"Kyoto", 25, "celsius", "Sunny", "60%", "10 km/h"⟩
      "Pleasant spring day").1 rfl rfl,
   (C9_weather_rendering
      (WeatherResult.mk (some ⟨"Kyoto", 25, "celsius", "Sunny", "60%", "10 km/h"⟩)
        (some "Pleasant spring day"))
      ⟨"Kyoto", 25, "celsius", "Sunny", "60%", "10 km/h"⟩
      "Pleasant spring day").2.2.2.1 rfl (by decide)⟩
